/-
Verification of the session core of the python-proton-core library.

The definitions below are shallow embeddings of the Python source:
bytes become `List Nat`, dictionaries become association lists, exceptions
become explicit result constructors, and the `while` loops of the DNS name
decoder become fuel-indexed recursion (the fuel counts loop iterations, so
`outOfFuel` for every fuel value means the Python loop does not terminate).
-/
import Mathlib

namespace ProtonCore

/-! ## DNS wire codec (src/proton/session/transports/utils/dns.py) -/

/-- Result of `DNSParser._get_name` / `AlternativeRoutingTransport._dns_parse_name`
(the two methods are line-for-line identical loops; only the exception class
raised on a non-parsable label differs, which `errNonParsable` stands for).
`indexError` is the Python `IndexError` raised by `buffer[offset + 1]` when a
compression-pointer byte is the last byte of the buffer. -/
inductive NameRes where
  | ok (parsedLength : Nat) (parts : List (List Nat))
  | errNonParsable
  | indexError
  | outOfFuel
deriving DecidableEq, Repr

/-- The `while offset < len(buffer) and buffer[offset] != 0` loop of
`DNSParser._get_name` (dns.py lines 140-160) and of
`AlternativeRoutingTransport._dns_parse_name` (alternativerouting.py lines
59-79).  The loop state is (offset, has_jumped, parsed_length, parts); `fuel`
bounds the number of iterations actually executed. -/
def getNameLoop (buffer : List Nat) (fuel offset : Nat) (hasJumped : Bool)
    (parsedLength : Nat) (parts : List (List Nat)) : NameRes :=
  if offset < buffer.length ∧ buffer.getD offset 0 ≠ 0 then
    match fuel with
    | 0 => .outOfFuel
    | fuel' + 1 =>
      let len := buffer.getD offset 0
      if len &&& 0xC0 = 0xC0 then
        if offset + 1 < buffer.length then
          getNameLoop buffer fuel' (((len &&& 0x3F) <<< 8) + buffer.getD (offset + 1) 0) true
            (if hasJumped then parsedLength else parsedLength + 2) parts
        else
          .indexError
      else
        if offset + 1 + len > buffer.length then
          .errNonParsable
        else
          getNameLoop buffer fuel' (offset + len + 1) hasJumped
            (if hasJumped then parsedLength else parsedLength + len + 1)
            (parts ++ [(buffer.drop (offset + 1)).take len])
  else
    .ok (if hasJumped then parsedLength else parsedLength + 1) parts

/-- Models `DNSParser._get_name(buffer, offset)`, with an explicit iteration budget. -/
def DNSParser_get_name (buffer : List Nat) (offset : Nat) (fuel : Nat) : NameRes :=
  getNameLoop buffer fuel offset false 0 []

/-- The name decoder diverges at this input: the Python loop runs forever
(it never returns, raises, or runs past the buffer). -/
def getName_diverges (buffer : List Nat) (offset : Nat) : Prop :=
  ∀ fuel, DNSParser_get_name buffer offset fuel = .outOfFuel

/-- Characters accepted by the `[A-Z\d-]` class of `_VALID_HOSTNAME_SEGMENT`
under `re.IGNORECASE`. -/
def isSegmentChar (b : Nat) : Bool :=
  (65 ≤ b && b ≤ 90) || (97 ≤ b && b ≤ 122) || (48 ≤ b && b ≤ 57) || b = 45

/-- One candidate match of `(?!-)[A-Z\d-]{1,63}(?<!-)` consuming exactly `k`
characters of the segment. -/
def segMatchAt (seg : List Nat) (k : Nat) : Bool :=
  1 ≤ k && k ≤ 63 && (seg.take k).all isSegmentChar
    && seg.getD 0 0 ≠ 45 && seg.getD (k - 1) 0 ≠ 45

/-- Models `re.match(_VALID_HOSTNAME_SEGMENT, segment)` as a Boolean: the pattern is
anchored with `$`, which in Python matches at the end of the string or just
before a single trailing newline, so the quantifier can stop either at
`seg.length` or (when the last byte is `\n`, code 10) at `seg.length - 1`. -/
def segmentValid (seg : List Nat) : Bool :=
  segMatchAt seg seg.length
    || (seg.getD (seg.length - 1) 0 = 10 && segMatchAt seg (seg.length - 1))

/-- Models `"x.y.z".split(".")` on ASCII byte lists (dot = 46). -/
def splitOnDot : List Nat → List (List Nat)
  | [] => [[]]
  | b :: rest =>
    match splitOnDot rest with
    | s :: ss => if b = 46 then [] :: s :: ss else (b :: s) :: ss
    | [] => [[]]

/-- Models `DNSParser._is_valid_hostname` (dns.py lines 192-202).  `hostname[-1]` on
the empty string raises `IndexError`, represented by `.error ()`. -/
def is_valid_hostname (h : List Nat) : Except Unit Bool :=
  if h.length > 255 then .ok false
  else
    match h.getLast? with
    | none => .error ()
    | some last =>
      let h' := if last = 46 then h.dropLast else h
      .ok ((splitOnDot h').all segmentValid)

/-- One parsed DNS answer: a TXT hostname (its ASCII bytes) or an A record
(its four address bytes). -/
inductive DNSAnswer where
  | txt (hostname : List Nat)
  | ipv4 (addr : List Nat)
deriving DecidableEq, Repr

/-- Result of `DNSParser.parse`: the answer list, a `DNSParsingException`
(`parseError`), the authoritative NXDOMAIN `DNSResponseError` (`nxdomain`),
a generic `DNSResponseError` (`respError`), an escaped Python exception such
as `IndexError` (`pythonError`), or an unfinished name-decoding loop. -/
inductive ParseResult where
  | answers (l : List (Nat × DNSAnswer))
  | parseError
  | nxdomain
  | respError (rcode : Nat)
  | pythonError
  | outOfFuel
deriving DecidableEq, Repr

/-- Big-endian 16-bit read at byte offset `i`. -/
def be16 (data : List Nat) (i : Nat) : Nat :=
  data.getD i 0 * 256 + data.getD (i + 1) 0

/-- Big-endian 32-bit read at byte offset `i`. -/
def be32 (data : List Nat) (i : Nat) : Nat :=
  be16 data i * 65536 + be16 data (i + 2)

/-- The question-skipping loop of `DNSParser.parse` (dns.py lines 76-79). -/
def skipQuestions (fuel : Nat) (data : List Nat) : Nat → Nat → Except ParseResult Nat
  | offset, 0 => .ok offset
  | offset, count + 1 =>
    match DNSParser_get_name data offset fuel with
    | .errNonParsable => .error .parseError
    | .indexError => .error .pythonError
    | .outOfFuel => .error .outOfFuel
    | .ok nameLen _ => skipQuestions fuel data (offset + nameLen + 4) count

/-- The answer-record loop of `DNSParser.parse` (dns.py lines 84-127). -/
def parseAnswers (fuel : Nat) (data : List Nat) : Nat → Nat → List (Nat × DNSAnswer) → ParseResult
  | _, 0, acc => .answers acc
  | offset, count + 1, acc =>
    match DNSParser_get_name data offset fuel with
    | .errNonParsable => .parseError
    | .indexError => .pythonError
    | .outOfFuel => .outOfFuel
    | .ok nameLen _ =>
      let off₁ := offset + nameLen
      if data.length < off₁ + 10 then .parseError
      else
        let recType := be16 data off₁
        let recClass := be16 data (off₁ + 2)
        let recTtl := be32 data (off₁ + 4)
        let recDlen := be16 data (off₁ + 8)
        let off₂ := off₁ + 10
        let record := (data.drop off₂).take recDlen
        if off₂ + recDlen > data.length then .parseError
        else
          let off₃ := off₂ + recDlen
          if recType = 16 ∧ recClass = 1 then
            match record with
            | [] => .pythonError
            | r0 :: value =>
              if r0 ≠ recDlen - 1 then .parseError
              else if r0 ≠ record.length - 1 then .parseError
              else if ¬ value.all (· < 128) then .parseError
              else
                match is_valid_hostname value with
                | .error _ => .pythonError
                | .ok false => .parseError
                | .ok true => parseAnswers fuel data off₃ count (acc ++ [(recTtl, .txt value)])
          else if recType = 1 ∧ recClass = 1 then
            if record.length ≠ 4 then .parseError
            else parseAnswers fuel data off₃ count (acc ++ [(recTtl, .ipv4 record)])
          else
            parseAnswers fuel data off₃ count acc

/-- Models `DNSParser.parse(reply_data)` (dns.py lines 54-129). -/
def DNSParser_parse (fuel : Nat) (data : List Nat) : ParseResult :=
  if data.length < 12 then .parseError
  else
    let rcode := data.getD 3 0 &&& 15
    if rcode = 3 then .nxdomain
    else if rcode ≠ 0 then .respError rcode
    else
      match skipQuestions fuel data 12 (be16 data 4) with
      | .error r => r
      | .ok offset => parseAnswers fuel data offset (be16 data 6) []

/-! ## Exception taxonomy (src/proton/session/exceptions.py) -/

/-- The exception classes of `proton/session/exceptions.py` (plus
`ProtonUnsupportedAuthVersionError` lives there too). -/
inductive ProtonExcClass where
  | protonError
  | cryptoError
  | unsupportedAuthVersion
  | apiError
  | apiNotReachable
  | apiNotAvailable
  | apiUnexpectedError
  | authenticationNeeded
  | twofaNeeded
  | missingScopeError
  | humanVerificationNeeded
deriving DecidableEq, Repr

/-- The direct base class of each exception class, as declared in
exceptions.py (`none` for the root `ProtonError`). -/
def superclass : ProtonExcClass → Option ProtonExcClass
  | .protonError => none
  | .cryptoError => some .protonError
  | .unsupportedAuthVersion => some .cryptoError
  | .apiError => some .protonError
  | .apiNotReachable => some .protonError
  | .apiNotAvailable => some .protonError
  | .apiUnexpectedError => some .protonError
  | .authenticationNeeded => some .apiError
  | .twofaNeeded => some .apiError
  | .missingScopeError => some .apiError
  | .humanVerificationNeeded => some .apiError

def ancestorsAux : Nat → ProtonExcClass → List ProtonExcClass
  | 0, _ => []
  | n + 1, c =>
    match superclass c with
    | none => []
    | some p => p :: ancestorsAux n p

/-- All strict ancestors of a class (the hierarchy has depth < 12). -/
def ancestors (c : ProtonExcClass) : List ProtonExcClass :=
  ancestorsAux 12 c

/-- Python `issubclass`: reflexive-transitive closure of the base-class
relation. -/
def subclassOf (c d : ProtonExcClass) : Bool :=
  c = d || (ancestors c).contains d

/-! ## API errors and the retry loop (src/proton/session/api.py) -/

/-- A `ProtonAPIError`: HTTP status, HTTP headers, and the body `Code`. -/
structure APIError where
  http_code : Nat
  body_code : Int
  http_headers : List (String × String)
deriving DecidableEq, Repr

/-- Python `dict.get(k, d)` on an association list. -/
def pyDictGetD (hs : List (String × String)) (k d : String) : String :=
  match hs with
  | [] => d
  | (k', v) :: rest => if k' = k then v else pyDictGetD rest k d

/-- Python `str.isnumeric` restricted to the ASCII header strings this code
receives. -/
def pyIsNumeric (s : String) : Bool :=
  !s.toList.isEmpty && s.toList.all Char.isDigit

/-- Python `int(...)` on a string of digits. -/
def pyStrToNat (s : String) : Nat :=
  s.toList.foldl (fun acc c => acc * 10 + (c.toNat - 48)) 0

/-- The sleep performed by one call of `Session.__sleep_for_exception`
(api.py lines 757-761): the numeric `retry-after` header value, otherwise
`3 + random.random()*5` seconds (`jitter`). -/
inductive SleepSpec where
  | after (seconds : Nat)
  | jitter
deriving DecidableEq, Repr

def sleepForException (e : APIError) : SleepSpec :=
  let v := pyDictGetD e.http_headers "retry-after" "-"
  if pyIsNumeric v then .after (pyStrToNat v) else .jitter

/-- Models `Session.needs_twofa` (api.py lines 596-602): `False` when `Scopes` is
`None`, else `'twofactor' in Scopes`. -/
def needs_twofa (scopes : Option (List String)) : Bool :=
  match scopes with
  | none => false
  | some s => s.contains "twofactor"

/-- What one call of `Session.__async_api_request_internal` does from the
retry loop's point of view: return a payload, raise a `ProtonAPIError`, or
raise some other exception class (which the loop does not catch). -/
inductive TransportCall where
  | ok (payload : Nat)
  | apiErr (e : APIError)
  | otherExc (x : ProtonExcClass)
deriving DecidableEq, Repr

/-- The observable result of `Session.async_api_request`. `raiseNone` is the
`raise stored_exception` at line 199 executed with `stored_exception = None`
(a Python `TypeError`). -/
inductive ApiOutcome where
  | success (payload : Nat)
  | twofaNeeded (e : APIError)
  | missingScope (e : APIError)
  | authNeeded (e : APIError)
  | humanVerificationNeeded (e : APIError)
  | apiError (e : APIError)
  | otherRaise (x : ProtonExcClass)
  | raiseNone
deriving DecidableEq, Repr

/-- Trace of one `Session.async_api_request` call: the final outcome, the
sleeps performed, and how many transport requests and refresh calls were
issued. -/
structure LoopTrace where
  outcome : ApiOutcome
  sleeps : List SleepSpec
  transportCalls : Nat
  refreshCalls : Nat
deriving DecidableEq, Repr

/-- The `while attempts > 0` retry loop of `Session.async_api_request`
(api.py lines 156-199).  `transport i` is what the i-th transport request
does; `refresh i` is the result of the i-th `async_refresh` call (its
truthiness, and the session scopes after it returns); `scopes` is the current
`Session.Scopes`, read by `needs_twofa` in the 403 branch and updated by each
refresh. -/
def apiRequestLoop (transport : Nat → TransportCall) (refresh : Nat → Bool × Option (List String)) :
    Option (List String) → Nat → Nat → Nat → Option APIError → LoopTrace
  | _, 0, _, _, stored =>
    { outcome := match stored with | some e => .apiError e | none => .raiseNone,
      sleeps := [], transportCalls := 0, refreshCalls := 0 }
  | scopes, n + 1, ci, ri, _ =>
    match transport ci with
    | .ok v => { outcome := .success v, sleeps := [], transportCalls := 1, refreshCalls := 0 }
    | .otherExc x => { outcome := .otherRaise x, sleeps := [], transportCalls := 1, refreshCalls := 0 }
    | .apiErr e =>
      if e.http_code = 403 then
        { outcome := if needs_twofa scopes then .twofaNeeded e else .missingScope e,
          sleeps := [], transportCalls := 1, refreshCalls := 0 }
      else if e.http_code = 401 then
        if (refresh ri).1 then
          let r := apiRequestLoop transport refresh (refresh ri).2 n (ci + 1) (ri + 1) (some e)
          { r with transportCalls := r.transportCalls + 1, refreshCalls := r.refreshCalls + 1 }
        else
          { outcome := .authNeeded e, sleeps := [], transportCalls := 1, refreshCalls := 1 }
      else if e.http_code = 422 ∧ e.body_code = 9001 then
        { outcome := .humanVerificationNeeded e, sleeps := [], transportCalls := 1, refreshCalls := 0 }
      else if e.body_code = 12087 then
        { outcome := .humanVerificationNeeded e, sleeps := [], transportCalls := 1, refreshCalls := 0 }
      else if e.http_code = 408 ∨ e.http_code = 502 then
        let r := apiRequestLoop transport refresh scopes n (ci + 1) ri (some e)
        { r with transportCalls := r.transportCalls + 1 }
      else if e.http_code = 429 ∨ e.http_code = 503 then
        let r := apiRequestLoop transport refresh scopes n (ci + 1) ri (some e)
        { r with sleeps := sleepForException e :: r.sleeps, transportCalls := r.transportCalls + 1 }
      else
        { outcome := .apiError e, sleeps := [], transportCalls := 1, refreshCalls := 0 }

/-- Models `Session.async_api_request`: the loop starts with `attempts = 3` and no
stored exception. -/
def async_api_request (transport : Nat → TransportCall)
    (refresh : Nat → Bool × Option (List String)) (scopes : Option (List String)) : LoopTrace :=
  apiRequestLoop transport refresh scopes 3 0 0 none

/-! ## Session state (src/proton/session/api.py, class Session) -/

/-- A Python value as stored in the session's serialized-state dictionary:
`None`, a string, a non-negative integer, a list of strings, or a nested
dictionary. -/
inductive PValue where
  | null
  | s (v : String)
  | n (v : Nat)
  | strlist (v : List String)
  | map (v : List (String × PValue))

/-- First-match association-list lookup, the shallow embedding of
`dict.get(k, None)` for dictionaries (whose keys are unique). -/
def lookupPV : List (String × PValue) → String → Option PValue
  | [], _ => none
  | (k, v) :: rest, key => if k = key then some v else lookupPV rest key

/-- Python `dict.update`: existing keys keep their position and take the new
value, new keys are appended. -/
def dictUpdate (base upd : List (String × PValue)) : List (String × PValue) :=
  base.map (fun kv =>
    match lookupPV upd kv.1 with
    | some v => (kv.1, v)
    | none => kv)
  ++ upd.filter (fun kv => (lookupPV base kv.1).isNone)

/-- The private attributes of `Session` that the claims are about.  Fields
that Python initializes to `None` and fills from JSON are `PValue`
(`PValue.null` = `None`). `environment` is the name of `self.__environment`
(`none` when unset; reading `Session.environment` then loads the Loader's
default). -/
structure SessionState where
  UID : PValue
  AccessToken : PValue
  RefreshToken : PValue
  Scopes : PValue
  AccountName : PValue
  twoFA : PValue
  extrastate : List (String × PValue)
  refresh_revision : Nat
  appversion : String
  user_agent : String
  environment : Option String

/-- Python `x is None` on a stored value. -/
def pyIsNone : PValue → Bool
  | .null => true
  | _ => false

/-- Models `Session.authenticated` (api.py line 565): `self.__UID is not None`. -/
def authenticated (st : SessionState) : Bool :=
  !(pyIsNone st.UID)

/-- Models `Session._clear_local_data` (api.py lines 514-521). -/
def clearLocalData (st : SessionState) : SessionState :=
  { st with
    UID := .null, AccessToken := .null, RefreshToken := .null,
    Scopes := .null, twoFA := .null, extrastate := [] }

/-- Models `Session.__getstate__` (api.py lines 669-692).  `defaultEnv` is the name
of the environment the Loader would return when `self.__environment` is still
unset. -/
def Session_getstate (st : SessionState) (defaultEnv : String) : List (String × PValue) :=
  if pyIsNone st.UID then []
  else
    dictUpdate
      [("UID", st.UID),
       ("AccessToken", st.AccessToken),
       ("RefreshToken", st.RefreshToken),
       ("Scopes", st.Scopes),
       ("Environment", .s (st.environment.getD defaultEnv)),
       ("AccountName", st.AccountName),
       ("LastUseData", .map
        [("2FA", st.twoFA),
         ("appversion", .s st.appversion),
         ("user_agent", .s st.user_agent),
         ("refresh_revision", .n st.refresh_revision)])]
      st.extrastate

/-- The keys `__setstate__` treats as its own (api.py line 667). -/
def knownKeys : List String :=
  ["UID", "AccessToken", "RefreshToken", "Scopes", "AccountName", "Environment", "LastUseData"]

/-- Models `Session.__setstate__` (api.py lines 638-667) applied to an
already-constructed `Session` (every `_Session__...` attribute probed at
lines 640-651 exists, so `2FA`, `appversion`, `user_agent` and
`refresh_revision` keep their current values and `LastUseData` is ignored). -/
def Session_setstate (st : SessionState) (data : List (String × PValue)) : SessionState :=
  { st with
    UID := (lookupPV data "UID").getD .null,
    AccessToken := (lookupPV data "AccessToken").getD .null,
    RefreshToken := (lookupPV data "RefreshToken").getD .null,
    Scopes := (lookupPV data "Scopes").getD .null,
    AccountName := (lookupPV data "AccountName").getD .null,
    environment :=
      match lookupPV data "Environment" with
      | some (.s name) => some name
      | _ => none,
    extrastate := data.filter (fun kv => !(knownKeys.contains kv.1)) }

/-- The `(account_name, session_data)` pair `Session._requests_unlock`
(api.py lines 730-743) hands to each persistence observer's
`_release_session_lock`: the session's own `AccountName` and serialized state
when `AccountName` is not `None`, else the explicit `account_name` argument
and `None`. -/
def requests_unlock_observer_args (st : SessionState) (accountNameArg : PValue)
    (defaultEnv : String) : PValue × Option (List (String × PValue)) :=
  if pyIsNone st.AccountName then (accountNameArg, none)
  else (st.AccountName, some (Session_getstate st defaultEnv))

/-! ## Logout (Session.async_logout, api.py lines 377-406) -/

/-- What the single `DELETE /auth` transport request would do. -/
inductive LogoutNet where
  | ok
  | err (e : APIError)
deriving DecidableEq, Repr

/-- Models `Session.async_logout`: returns the result (`.error e` = the exception
propagating to the caller), the session state afterwards, and the list of
network requests issued as (method, endpoint) pairs. -/
def Session_async_logout (st : SessionState) (net : LogoutNet) :
    Except APIError Bool × SessionState × List (String × String) :=
  if ¬ authenticated st then
    (.ok true, clearLocalData st, [])
  else
    match net with
    | .ok => (.ok true, clearLocalData st, [("DELETE", "/auth")])
    | .err e =>
      if e.http_code = 401 then (.ok true, clearLocalData st, [("DELETE", "/auth")])
      else (.error e, st, [("DELETE", "/auth")])

/-! ## Refresh (Session.async_refresh, api.py lines 318-373) -/

/-- What one `POST /auth/refresh` transport request does. -/
inductive RefreshNet where
  | ok (accessToken refreshToken : String) (scopes : List String)
  | err (e : APIError)
deriving DecidableEq, Repr

/-- Events observable during `Session.async_refresh`, in order. -/
inductive RefreshEvent where
  | waited
  | locked
  | revIncremented
  | netRefresh
  | slept (s : SleepSpec)
  | unlocked
deriving DecidableEq, Repr

/-- The `while attempts > 0` loop of `async_refresh` (api.py lines 344-371).
Falling out of the loop returns Python `None`, modelled as `none`. -/
def refreshAttempts (net : Nat → RefreshNet) :
    SessionState → Nat → Nat → Option Bool × SessionState × List RefreshEvent
  | st, 0, _ => (none, st, [])
  | st, n + 1, ci =>
    match net ci with
    | .ok access refreshTok scopes =>
      (some true,
       { st with AccessToken := .s access, RefreshToken := .s refreshTok,
                 Scopes := .strlist scopes },
       [.netRefresh])
    | .err e =>
      if e.http_code = 409 then
        let r := refreshAttempts net st n (ci + 1)
        (r.1, r.2.1, .netRefresh :: r.2.2)
      else if e.http_code = 429 ∨ e.http_code = 503 then
        let r := refreshAttempts net st n (ci + 1)
        (r.1, r.2.1, .netRefresh :: .slept (sleepForException e) :: r.2.2)
      else if e.http_code = 400 ∨ e.http_code = 422 then
        (some false, clearLocalData st, [.netRefresh])
      else
        (some false, st, [.netRefresh])

/-- The locked part of `async_refresh`: lock, increment
`__refresh_revision` once, run the attempt loop, unlock. -/
def refreshLocked (st : SessionState) (net : Nat → RefreshNet) :
    Option Bool × SessionState × List RefreshEvent :=
  let st₁ := { st with refresh_revision := st.refresh_revision + 1 }
  let r := refreshAttempts net st₁ 3 0
  (r.1, r.2.1, .locked :: .revIncremented :: r.2.2 ++ [.unlocked])

/-- Models `Session.async_refresh(only_when_refresh_revision_is, ...)`.  The
revision check and the increment run with no `await` between them, so under
cooperative scheduling they are atomic; the sequential model below relies on
that. -/
def Session_async_refresh (st : SessionState) (onlyWhenRevisionIs : Option Nat)
    (net : Nat → RefreshNet) : Option Bool × SessionState × List RefreshEvent :=
  match onlyWhenRevisionIs with
  | some r =>
    if r ≠ st.refresh_revision then (some true, st, [.waited])
    else refreshLocked st net
  | none => refreshLocked st net

/-- Number of `POST /auth/refresh` requests in a trace. -/
def countNetRefresh (evs : List RefreshEvent) : Nat :=
  evs.count .netRefresh

/-- N callers that all captured the same `refresh_revision` before their 401,
entering `async_refresh` one after the other (the event loop serializes the
atomic check-and-increment).  Returns the final state, each caller's result,
and the total number of network refresh requests. -/
def runConcurrentRefreshers (net : Nat → RefreshNet) (captured : Nat) :
    SessionState → Nat → SessionState × List (Option Bool) × Nat
  | st, 0 => (st, [], 0)
  | st, n + 1 =>
    let r := Session_async_refresh st (some captured) net
    let rest := runConcurrentRefreshers net captured r.2.1 n
    (rest.1, r.1 :: rest.2.1, countNetRefresh r.2.2 + rest.2.2)

/-! ## Transport response handling (src/proton/session/transports/aiohttp.py)
and transport selection (src/proton/session/transports/auto.py) -/

/-- The decoded body of an HTTP response: `await ret.json()` either raises
`JSONDecodeError` or yields an object, of which only the `Code` field (an
integer) matters here. -/
inductive RespBody where
  | notJson
  | jsonObj (fields : List (String × Int))
deriving DecidableEq, Repr

def lookupField : List (String × Int) → String → Option Int
  | [], _ => none
  | (k, v) :: rest, key => if k = key then some v else lookupField rest key

/-- What `AiohttpTransport.async_api_request` does with a received HTTP
response. -/
inductive TransportOutcome where
  | okJson (fields : List (String × Int))
  | raiseNotReachable
  | raiseNotAvailable
  | raiseApiError (status : Nat) (fields : List (String × Int))
  | raiseUnexpected
deriving DecidableEq, Repr

/-- The response-handling tail of `AiohttpTransport.async_api_request`
(aiohttp.py lines 107-130).
* missing `content-type` header: `ret.headers['content-type']` raises
  `KeyError`, caught by `except (Exception)` → `ProtonAPIUnexpectedError`;
* content type other than `application/json` → `ProtonAPINotReachable`;
* `JSONDecodeError`: the handler builds `ProtonAPIError(status, headers, {})`
  whose constructor evaluates `self.body_code = {}['Code']` and raises
  `KeyError`, again caught by `except (Exception)` →
  `ProtonAPIUnexpectedError`;
* decoded JSON without a `Code` field: `ret_json['Code']` raises `KeyError`
  → `ProtonAPIUnexpectedError`;
* `Code` outside {1000, 1001} → `ProtonAPIError(status, headers, ret_json)`;
* otherwise the JSON is returned. -/
def aiohttpHandleResponse (contentType : Option String) (status : Nat) (body : RespBody) :
    TransportOutcome :=
  match contentType with
  | none => .raiseUnexpected
  | some ct =>
    if ct ≠ "application/json" then .raiseNotReachable
    else
      match body with
      | .notJson => .raiseUnexpected
      | .jsonObj fields =>
        match lookupField fields "Code" with
        | none => .raiseUnexpected
        | some c => if c = 1000 ∨ c = 1001 then .okJson fields else .raiseApiError status fields

/-- Outcome of one probe task of `AutoTransport.find_available_transport`. -/
inductive ProbeResult where
  | ping1000
  | notAvailable
  | notReachable
  | otherError
deriving DecidableEq, Repr

/-- Models `AutoTransport._ping_via_transport` (auto.py lines 68-82) seen through
its `/tests/ping` transport outcome: exactly `{"Code": 1000}` commits the
transport, any other successful JSON raises `ProtonAPINotAvailable`, and a
raised exception propagates (`ProtonAPIError` and `ProtonAPIUnexpectedError`
are neither `ProtonAPINotAvailable` nor `ProtonAPINotReachable`, so
`find_available_transport` treats them as unhandled). -/
def pingViaTransport (t : TransportOutcome) : ProbeResult :=
  match t with
  | .okJson fields => if fields = [("Code", 1000)] then .ping1000 else .notAvailable
  | .raiseNotReachable => .notReachable
  | .raiseNotAvailable => .notAvailable
  | .raiseApiError _ _ => .otherError
  | .raiseUnexpected => .otherError

/-- Result of `AutoTransport.find_available_transport` (auto.py lines
84-113). -/
inductive SelectOutcome where
  | committed (i : Nat)
  | noWorkingRaise
  | aborted
deriving DecidableEq, Repr

/-- Models `AutoTransport.find_available_transport`, sequentialized: the race's
probe tasks are examined in completion order; `ProtonAPINotAvailable` and
`ProtonAPINotReachable` are both recorded in `results_fail` and the loop
keeps waiting for the remaining candidates, the first successful probe is
committed, any other exception cancels everything and propagates, and an
empty success list raises `ProtonAPINotReachable("No working transports
found")`. -/
def findAvailableTransport : List ProbeResult → Nat → SelectOutcome
  | [], _ => .noWorkingRaise
  | p :: rest, i =>
    match p with
    | .ping1000 => .committed i
    | .notAvailable => findAvailableTransport rest (i + 1)
    | .notReachable => findAvailableTransport rest (i + 1)
    | .otherError => .aborted

/-! ## SRP password hashing (src/proton/session/srp/util.py) -/

/-- The byte alphabet `std_base64chars` of `bcrypt_b64_encode`. -/
def stdB64chars : List Nat :=
  ("ABCDEFGHIJKLMNOPQRSTUVWXYZabcdefghijklmnopqrstuvwxyz0123456789+/").toList.map Char.toNat

/-- The byte alphabet `bcrypt_base64` of `bcrypt_b64_encode`. -/
def bcryptB64chars : List Nat :=
  ("./ABCDEFGHIJKLMNOPQRSTUVWXYZabcdefghijklmnopqrstuvwxyz0123456789").toList.map Char.toNat

/-- Standard `base64.b64encode` on bytes ('=' is 61). -/
def b64encode : List Nat → List Nat
  | [] => []
  | [a] =>
    [stdB64chars.getD (a / 4) 0, stdB64chars.getD (a % 4 * 16) 0, 61, 61]
  | [a, b] =>
    [stdB64chars.getD (a / 4) 0, stdB64chars.getD (a % 4 * 16 + b / 16) 0,
     stdB64chars.getD (b % 16 * 4) 0, 61]
  | a :: b :: c :: rest =>
    [stdB64chars.getD (a / 4) 0, stdB64chars.getD (a % 4 * 16 + b / 16) 0,
     stdB64chars.getD (b % 16 * 4 + c / 64) 0, stdB64chars.getD (c % 64) 0] ++ b64encode rest

/-- Models `bytes.maketrans(std_base64chars, bcrypt_base64)` applied to one byte. -/
def bcryptTranslateByte (b : Nat) : Nat :=
  let i := stdB64chars.indexOf b
  if i < stdB64chars.length then bcryptB64chars.getD i b else b

/-- Models `bcrypt_b64_encode` (srp/util.py lines 32-36). -/
def bcrypt_b64_encode (s : List Nat) : List Nat :=
  (b64encode s).map bcryptTranslateByte

/-- The ASCII bytes of `b"proton"`. -/
def protonSuffixBytes : List Nat := ("proton").toList.map Char.toNat

/-- The ASCII bytes of `b"$2y$10$"`. -/
def bcryptVersionTag : List Nat := ("$2y$10$").toList.map Char.toNat

/-- Models `hash_password_3` (srp/util.py lines 39-43), parameterized by the hash
primitive (`pmhash`) and by `bcrypt.hashpw`, which are cryptographic
black boxes here. -/
def hash_password_3 (hashClass : List Nat → List Nat) (hashpw : List Nat → List Nat → List Nat)
    (password salt modulus : List Nat) : List Nat :=
  let salt16 := (salt ++ protonSuffixBytes).take 16
  let salt22 := (bcrypt_b64_encode salt16).take 22
  let hashed := hashpw password (bcryptVersionTag ++ salt22)
  hashClass (hashed ++ modulus)

/-- Models `hash_password` (srp/util.py lines 46-59): versions 3 and 4 use the
version-3 hash, every other version raises
`ProtonUnsupportedAuthVersionError`. -/
def hash_password (hashClass : List Nat → List Nat) (hashpw : List Nat → List Nat → List Nat)
    (password salt modulus : List Nat) (version : Int) : Except ProtonExcClass (List Nat) :=
  if version = 4 ∨ version = 3 then
    .ok (hash_password_3 hashClass hashpw password salt modulus)
  else
    .error .unsupportedAuthVersion

/-! ## Concrete DNS replies -/

/-- A DNS reply whose single answer is a TXT record (TYPE 16, CLASS 1) with
`RDLENGTH = 0`: `record` is empty, so `record[0]` at dns.py line 100 raises
`IndexError`. -/
def txtEmptyRdataReply : List Nat :=
  [0, 0, 129, 128, 0, 0, 0, 1, 0, 0, 0, 0, 0, 0, 16, 0, 1, 0, 0, 0, 60, 0, 0]

/-- A DNS reply whose single answer is a TXT record with `RDLENGTH = 1` and
a zero-length value: the length prefix is consistent, but
`_is_valid_hostname("")` evaluates `hostname[-1]` and raises `IndexError`. -/
def txtEmptyValueReply : List Nat :=
  [0, 0, 129, 128, 0, 0, 0, 1, 0, 0, 0, 0, 0, 0, 16, 0, 1, 0, 0, 0, 60, 0, 1, 0]

/-- A DNS reply whose single answer is a structurally well-formed TXT record
carrying the value `vpn-api.proton.me/malicious/`, which violates the
hostname grammar. -/
def txtMaliciousReply : List Nat :=
  [0, 0, 129, 128, 0, 0, 0, 1, 0, 0, 0, 0, 0, 0, 16, 0, 1, 0, 0, 0, 60, 0, 29, 28,
   118, 112, 110, 45, 97, 112, 105, 46, 112, 114, 111, 116, 111, 110, 46, 109,
   101, 47, 109, 97, 108, 105, 99, 105, 111, 117, 115, 47]

/-! ## Exemplar session states (used to instantiate theorems) -/

/-- An authenticated session. -/
def sessionAuthExample : SessionState :=
  ⟨.s "uid1", .s "acc1", .s "ref1", .strlist ["full"], .s "alice", .null,
   [("OpaqueKey", .s "opaque")], 2, "app", "ua", some "prod"⟩

/-- An unauthenticated session (with a leftover account name). -/
def sessionUnauthExample : SessionState :=
  ⟨.null, .null, .null, .null, .s "alice", .null, [], 0, "app", "ua", none⟩

/-! # Theorems -/

/-! ## Equation lemmas for the name-decoding loop -/

theorem getNameLoop_exit (buffer : List Nat) (fuel offset : Nat) (hj : Bool) (pl : Nat)
    (parts : List (List Nat)) (h : ¬(offset < buffer.length ∧ buffer.getD offset 0 ≠ 0)) :
    getNameLoop buffer fuel offset hj pl parts = .ok (if hj then pl else pl + 1) parts := by
  unfold getNameLoop; rw [if_neg h]

theorem getNameLoop_zero_eq (buffer : List Nat) (offset : Nat) (hj : Bool) (pl : Nat)
    (parts : List (List Nat)) :
    getNameLoop buffer 0 offset hj pl parts =
      if offset < buffer.length ∧ buffer.getD offset 0 ≠ 0 then .outOfFuel
      else .ok (if hj then pl else pl + 1) parts := rfl

theorem getNameLoop_succ_eq (buffer : List Nat) (n offset : Nat) (hj : Bool) (pl : Nat)
    (parts : List (List Nat)) :
    getNameLoop buffer (n + 1) offset hj pl parts =
      if offset < buffer.length ∧ buffer.getD offset 0 ≠ 0 then
        if buffer.getD offset 0 &&& 0xC0 = 0xC0 then
          if offset + 1 < buffer.length then
            getNameLoop buffer n (((buffer.getD offset 0 &&& 0x3F) <<< 8) + buffer.getD (offset + 1) 0)
              true (if hj then pl else pl + 2) parts
          else .indexError
        else
          if offset + 1 + buffer.getD offset 0 > buffer.length then .errNonParsable
          else
            getNameLoop buffer n (offset + buffer.getD offset 0 + 1) hj
              (if hj then pl else pl + buffer.getD offset 0 + 1)
              (parts ++ [(buffer.drop (offset + 1)).take (buffer.getD offset 0)])
      else .ok (if hj then pl else pl + 1) parts := rfl

/-- On the two-byte buffer `c0 00` the compression pointer at offset 0 points
back to offset 0, so every iteration returns to the same loop state. -/
theorem getNameLoop_cycle_stuck :
    ∀ (fuel : Nat) (hj : Bool) (pl : Nat) (parts : List (List Nat)),
      getNameLoop [192, 0] fuel 0 hj pl parts = .outOfFuel := by
  intro fuel
  induction fuel with
  | zero =>
    intro hj pl parts
    rw [getNameLoop_zero_eq]
    simp
  | succ n ih =>
    intro hj pl parts
    rw [getNameLoop_succ_eq]
    simp only [List.length_cons, List.length_nil, List.getD]
    norm_num
    exact ih true _ parts

/-- Pointer-free buffers make the loop's offset strictly increase, so
`buffer.length` iterations of fuel always suffice. -/
theorem getNameLoop_no_pointer_total (buffer : List Nat)
    (hptr : ∀ i, i < buffer.length → buffer.getD i 0 &&& 192 ≠ 192) :
    ∀ (fuel offset : Nat) (hj : Bool) (pl : Nat) (parts : List (List Nat)),
      buffer.length ≤ fuel + offset →
      getNameLoop buffer fuel offset hj pl parts ≠ .outOfFuel := by
  intro fuel
  induction fuel with
  | zero =>
    intro offset hj pl parts hle
    rw [getNameLoop_exit]
    · simp
    · rintro ⟨h1, _⟩; omega
  | succ n ih =>
    intro offset hj pl parts hle
    by_cases hcond : offset < buffer.length ∧ buffer.getD offset 0 ≠ 0
    · rw [getNameLoop_succ_eq, if_pos hcond]
      rw [if_neg (hptr offset hcond.1)]
      by_cases hb : offset + 1 + buffer.getD offset 0 > buffer.length
      · rw [if_pos hb]; simp
      · rw [if_neg hb]
        exact ih (offset + buffer.getD offset 0 + 1) hj _ _ (by omega)
    · rw [getNameLoop_exit _ _ _ _ _ _ hcond]
      simp

/-! ## Claim C9 -/

/-- Claim C9, counterexample: The claim states the name decoder terminates on
every buffer, including compression-pointer cycles.  It does not: on the
buffer `c0 00` (a pointer whose 14-bit target is its own offset 0) the Python
`while` loop of `DNSParser._get_name` / `_dns_parse_name` never reaches a
zero byte, never runs past the buffer and never raises — it loops forever
(every finite iteration budget is exhausted). -/
theorem c9_compression_pointer_cycle_diverges : getName_diverges [192, 0] 0 :=
  fun fuel => getNameLoop_cycle_stuck fuel false 0 []

/-- Claim C9, amended: The name decoder does terminate on every buffer that
contains no compression-pointer byte (no byte with its two high bits set):
each iteration then either exits the loop, raises, or strictly increases the
offset, so a fuel of `buffer.length` is never exhausted. -/
theorem c9_pointer_free_name_decoding_terminates (buffer : List Nat) (offset : Nat)
    (hptr : ∀ i, i < buffer.length → buffer.getD i 0 &&& 192 ≠ 192) :
    DNSParser_get_name buffer offset buffer.length ≠ .outOfFuel :=
  getNameLoop_no_pointer_total buffer hptr buffer.length offset false 0 [] (by omega)

theorem c9_pointer_free_name_decoding_terminates_witness :
    (∀ i, i < ([1, 97, 0] : List Nat).length → ([1, 97, 0] : List Nat).getD i 0 &&& 192 ≠ 192) ∧
    DNSParser_get_name [1, 97, 0] 0 3 ≠ .outOfFuel :=
  ⟨by decide, c9_pointer_free_name_decoding_terminates [1, 97, 0] 0 (by decide)⟩

/-! ## Claim C5 -/

/-- Claim C5: `DNSParser.parse` checks the 12-byte minimum length before any
RCODE inspection (a reply truncated mid-header is a parsing error, whatever
its bytes say); on a long-enough reply, RCODE 3 (byte 3's low nibble) raises
the authoritative NXDOMAIN response error and any other nonzero RCODE raises
a generic response error, both distinct from a parsing error. -/
theorem c5_parse_header_classification (data : List Nat) (fuel : Nat) :
    (data.length < 12 → DNSParser_parse fuel data = .parseError) ∧
    (12 ≤ data.length → data.getD 3 0 &&& 15 = 3 → DNSParser_parse fuel data = .nxdomain) ∧
    (12 ≤ data.length → data.getD 3 0 &&& 15 ≠ 3 → data.getD 3 0 &&& 15 ≠ 0 →
      DNSParser_parse fuel data = .respError (data.getD 3 0 &&& 15)) ∧
    ParseResult.nxdomain ≠ .parseError ∧
    (∀ rc, ParseResult.respError rc ≠ .parseError) := by
  refine ⟨?_, ?_, ?_, by simp, fun rc => by simp⟩
  · intro h
    rw [DNSParser_parse, if_pos h]
  · intro h1 h2
    rw [DNSParser_parse, if_neg (by omega)]
    simp only [h2]
    rfl
  · intro h1 h2 h3
    rw [DNSParser_parse, if_neg (by omega)]
    simp only [if_neg h2, if_pos h3]

theorem c5_parse_header_classification_witness :
    DNSParser_parse 5 [0, 0, 0, 3] = .parseError ∧
    DNSParser_parse 5 [0, 0, 0, 3, 0, 0, 0, 0, 0, 0, 0, 0] = .nxdomain ∧
    DNSParser_parse 5 [0, 0, 0, 5, 0, 0, 0, 0, 0, 0, 0, 0] = .respError 5 :=
  ⟨(c5_parse_header_classification [0, 0, 0, 3] 5).1 (by decide),
   (c5_parse_header_classification [0, 0, 0, 3, 0, 0, 0, 0, 0, 0, 0, 0] 5).2.1
     (by decide) (by decide),
   (c5_parse_header_classification [0, 0, 0, 5, 0, 0, 0, 0, 0, 0, 0, 0] 5).2.2.1
     (by decide) (by decide) (by decide)⟩

/-! ## Claim C3 -/

/-- Claim C3: Evaluating `DNSParser.parse` at malformed TXT answers: a TXT
record with `RDLENGTH = 0` and a TXT record whose value is the empty string
both escape with a Python `IndexError` (`pythonError`) instead of the
claimed `DNSParsingException`; a structurally valid TXT record carrying
`vpn-api.proton.me/malicious/` is, as claimed, rejected with a parsing
error. -/
theorem c3_malformed_txt_evaluation :
    DNSParser_parse 16 txtEmptyRdataReply = .pythonError ∧
    DNSParser_parse 16 txtEmptyValueReply = .pythonError ∧
    DNSParser_parse 16 txtMaliciousReply = .parseError ∧
    ParseResult.pythonError ≠ .parseError := by
  refine ⟨by decide, by decide, by decide, by simp⟩

/-! ## Claim C4 -/

/-- Claim C4: `Session.async_logout` returns `True` and issues no network
request at all when the session is not authenticated; when authenticated it
issues exactly one `DELETE /auth` request, treats an HTTP 401 API error like
success (local data cleared), and propagates any other API error while
leaving the whole session state (UID, tokens, scopes, 2FA marker, extra
state) untouched. -/
theorem c4_logout_classification (st : SessionState) (net : LogoutNet) (e : APIError) :
    (authenticated st = false →
      Session_async_logout st net = (.ok true, clearLocalData st, [])) ∧
    (authenticated st = true →
      Session_async_logout st .ok = (.ok true, clearLocalData st, [("DELETE", "/auth")])) ∧
    (authenticated st = true → e.http_code = 401 →
      Session_async_logout st (.err e) = (.ok true, clearLocalData st, [("DELETE", "/auth")])) ∧
    (authenticated st = true → e.http_code ≠ 401 →
      Session_async_logout st (.err e) = (.error e, st, [("DELETE", "/auth")])) := by
  refine ⟨?_, ?_, ?_, ?_⟩
  · intro h
    simp [Session_async_logout, h]
  · intro h
    simp [Session_async_logout, h]
  · intro h h401
    simp [Session_async_logout, h, h401]
  · intro h hne
    simp [Session_async_logout, h, hne]

theorem c4_logout_classification_witness :
    Session_async_logout sessionUnauthExample .ok =
      (.ok true, clearLocalData sessionUnauthExample, []) ∧
    Session_async_logout sessionAuthExample (.err ⟨401, 0, []⟩) =
      (.ok true, clearLocalData sessionAuthExample, [("DELETE", "/auth")]) ∧
    Session_async_logout sessionAuthExample (.err ⟨500, 2000, []⟩) =
      (.error ⟨500, 2000, []⟩, sessionAuthExample, [("DELETE", "/auth")]) :=
  ⟨(c4_logout_classification sessionUnauthExample .ok ⟨401, 0, []⟩).1 rfl,
   (c4_logout_classification sessionAuthExample (.err ⟨401, 0, []⟩) ⟨401, 0, []⟩).2.2.1 rfl rfl,
   (c4_logout_classification sessionAuthExample (.err ⟨500, 2000, []⟩) ⟨500, 2000, []⟩).2.2.2
     rfl (by decide)⟩

/-! ## Claim C10 -/

/-- Claim C10: `Session._clear_local_data` sets exactly UID, AccessToken,
RefreshToken, Scopes and the 2FA marker to `None` and the extra state to the
empty dict, and leaves every other field — in particular `AccountName` and
`__refresh_revision` — unchanged; consequently `_requests_unlock` after a
logout still hands the account name to the persistence observers, together
with the empty serialized state (the erase signal). -/
theorem c10_clear_local_data_frame (st : SessionState) (arg : PValue) (d : String) :
    (clearLocalData st).UID = .null ∧
    (clearLocalData st).AccessToken = .null ∧
    (clearLocalData st).RefreshToken = .null ∧
    (clearLocalData st).Scopes = .null ∧
    (clearLocalData st).twoFA = .null ∧
    (clearLocalData st).extrastate = [] ∧
    (clearLocalData st).AccountName = st.AccountName ∧
    (clearLocalData st).refresh_revision = st.refresh_revision ∧
    (clearLocalData st).appversion = st.appversion ∧
    (clearLocalData st).user_agent = st.user_agent ∧
    (clearLocalData st).environment = st.environment ∧
    (pyIsNone st.AccountName = false →
      requests_unlock_observer_args (clearLocalData st) arg d =
        (st.AccountName, some (Session_getstate (clearLocalData st) d))) ∧
    Session_getstate (clearLocalData st) d = [] := by
  refine ⟨rfl, rfl, rfl, rfl, rfl, rfl, rfl, rfl, rfl, rfl, rfl, ?_, rfl⟩
  intro h
  simp [requests_unlock_observer_args, clearLocalData, h]

theorem c10_clear_local_data_frame_witness :
    (clearLocalData sessionAuthExample).AccountName = .s "alice" ∧
    requests_unlock_observer_args (clearLocalData sessionAuthExample) .null "prod" =
      (.s "alice", some []) :=
  ⟨(c10_clear_local_data_frame sessionAuthExample .null "prod").2.2.2.2.2.2.1,
   (c10_clear_local_data_frame sessionAuthExample .null "prod").2.2.2.2.2.2.2.2.2.2.2.1 rfl⟩

/-! ## Helper: evaluating the api-request retry loop -/

theorem apiRequestLoop_zero_eq (t : Nat → TransportCall) (r : Nat → Bool × Option (List String))
    (s : Option (List String)) (ci ri : Nat) (stored : Option APIError) :
    apiRequestLoop t r s 0 ci ri stored =
      { outcome := match stored with | some e => .apiError e | none => .raiseNone,
        sleeps := [], transportCalls := 0, refreshCalls := 0 } := rfl

theorem apiRequestLoop_succ_eq (t : Nat → TransportCall) (r : Nat → Bool × Option (List String))
    (s : Option (List String)) (n ci ri : Nat) (stored : Option APIError) :
    apiRequestLoop t r s (n + 1) ci ri stored =
      (match t ci with
      | .ok v => { outcome := .success v, sleeps := [], transportCalls := 1, refreshCalls := 0 }
      | .otherExc x =>
        { outcome := .otherRaise x, sleeps := [], transportCalls := 1, refreshCalls := 0 }
      | .apiErr e =>
        if e.http_code = 403 then
          { outcome := if needs_twofa s then .twofaNeeded e else .missingScope e,
            sleeps := [], transportCalls := 1, refreshCalls := 0 }
        else if e.http_code = 401 then
          if (r ri).1 then
            let res := apiRequestLoop t r (r ri).2 n (ci + 1) (ri + 1) (some e)
            { res with transportCalls := res.transportCalls + 1,
                       refreshCalls := res.refreshCalls + 1 }
          else
            { outcome := .authNeeded e, sleeps := [], transportCalls := 1, refreshCalls := 1 }
        else if e.http_code = 422 ∧ e.body_code = 9001 then
          { outcome := .humanVerificationNeeded e, sleeps := [], transportCalls := 1,
            refreshCalls := 0 }
        else if e.body_code = 12087 then
          { outcome := .humanVerificationNeeded e, sleeps := [], transportCalls := 1,
            refreshCalls := 0 }
        else if e.http_code = 408 ∨ e.http_code = 502 then
          let res := apiRequestLoop t r s n (ci + 1) ri (some e)
          { res with transportCalls := res.transportCalls + 1 }
        else if e.http_code = 429 ∨ e.http_code = 503 then
          let res := apiRequestLoop t r s n (ci + 1) ri (some e)
          { res with sleeps := sleepForException e :: res.sleeps,
                     transportCalls := res.transportCalls + 1 }
        else
          { outcome := .apiError e, sleeps := [], transportCalls := 1, refreshCalls := 0 }) := rfl

/-! ## Claim C8 -/

/-- Claim C8: `hash_password` dispatches version 3 and version 4 to the single
version-3 bcrypt-based hash and raises `ProtonUnsupportedAuthVersionError`
for every other version; that error is a subclass of `ProtonCryptoError` and
not of `ProtonAPIError`, and the orchestrator's retry loop re-raises any
non-`ProtonAPIError` exception immediately (one attempt, no retry, no
downgrade). -/
theorem c8_hash_password_version_dispatch
    (hashClass : List Nat → List Nat) (hashpw : List Nat → List Nat → List Nat)
    (password salt modulus : List Nat) (version : Int)
    (t : Nat → TransportCall) (r : Nat → Bool × Option (List String))
    (s : Option (List String)) (x : ProtonExcClass) :
    (version = 3 ∨ version = 4 →
      hash_password hashClass hashpw password salt modulus version =
        .ok (hash_password_3 hashClass hashpw password salt modulus)) ∧
    (version ≠ 3 → version ≠ 4 →
      hash_password hashClass hashpw password salt modulus version =
        .error .unsupportedAuthVersion) ∧
    subclassOf .unsupportedAuthVersion .cryptoError = true ∧
    subclassOf .unsupportedAuthVersion .protonError = true ∧
    subclassOf .unsupportedAuthVersion .apiError = false ∧
    (t 0 = .otherExc x →
      async_api_request t r s = ⟨.otherRaise x, [], 1, 0⟩) := by
  refine ⟨?_, ?_, by decide, by decide, by decide, ?_⟩
  · intro h
    rcases h with h | h <;> simp [hash_password, h]
  · intro h3 h4
    rw [hash_password, if_neg (by tauto)]
  · intro ht
    have h3 : async_api_request t r s = apiRequestLoop t r s (2 + 1) 0 0 none := rfl
    rw [h3, apiRequestLoop_succ_eq, ht]

theorem c8_hash_password_version_dispatch_witness :
    hash_password id (fun p _ => p) [1] [2] [3] 1 = .error .unsupportedAuthVersion ∧
    async_api_request (fun _ => .otherExc .unsupportedAuthVersion) (fun _ => (false, none)) none =
      ⟨.otherRaise .unsupportedAuthVersion, [], 1, 0⟩ :=
  ⟨(c8_hash_password_version_dispatch id (fun p _ => p) [1] [2] [3] 1
      (fun _ => .otherExc .unsupportedAuthVersion) (fun _ => (false, none)) none
      .unsupportedAuthVersion).2.1 (by decide) (by decide),
   (c8_hash_password_version_dispatch id (fun p _ => p) [1] [2] [3] 1
      (fun _ => .otherExc .unsupportedAuthVersion) (fun _ => (false, none)) none
      .unsupportedAuthVersion).2.2.2.2.2 rfl⟩

/-- The loop body decrements `attempts` before every transport request, so a
budget of `n` bounds the transport requests by `n`. -/
theorem apiRequestLoop_calls_le (t : Nat → TransportCall) (r : Nat → Bool × Option (List String)) :
    ∀ (n : Nat) (s : Option (List String)) (ci ri : Nat) (stored : Option APIError),
      (apiRequestLoop t r s n ci ri stored).transportCalls ≤ n := by
  intro n
  induction n with
  | zero =>
    intro s ci ri stored
    rw [apiRequestLoop_zero_eq]
  | succ n ih =>
    intro s ci ri stored
    rw [apiRequestLoop_succ_eq]
    rcases ht : t ci with v | e | x
    · simp
    · simp only []
      split_ifs <;> simp [ih]
    · simp

/-- Every recursive continuation of the loop carries `some e`, so starting
from a positive budget the `raise stored_exception` at exhaustion never sees
`None`. -/
theorem apiRequestLoop_ne_raiseNone (t : Nat → TransportCall)
    (r : Nat → Bool × Option (List String)) :
    ∀ (n : Nat) (s : Option (List String)) (ci ri : Nat) (e : APIError),
      (apiRequestLoop t r s n ci ri (some e)).outcome ≠ .raiseNone := by
  intro n
  induction n with
  | zero =>
    intro s ci ri e
    rw [apiRequestLoop_zero_eq]
    simp
  | succ n ih =>
    intro s ci ri e
    rw [apiRequestLoop_succ_eq]
    rcases ht : t ci with v | e' | x
    · simp
    · simp only []
      split_ifs <;> simp [ih]
    · simp

theorem apiRequestLoop_ok_step (t : Nat → TransportCall) (r : Nat → Bool × Option (List String))
    (s : Option (List String)) (n ci ri : Nat) (stored : Option APIError) (v : Nat)
    (ht : t ci = .ok v) :
    apiRequestLoop t r s (n + 1) ci ri stored = ⟨.success v, [], 1, 0⟩ := by
  rw [apiRequestLoop_succ_eq, ht]

theorem apiRequestLoop_otherExc_step (t : Nat → TransportCall)
    (r : Nat → Bool × Option (List String)) (s : Option (List String)) (n ci ri : Nat)
    (stored : Option APIError) (x : ProtonExcClass) (ht : t ci = .otherExc x) :
    apiRequestLoop t r s (n + 1) ci ri stored = ⟨.otherRaise x, [], 1, 0⟩ := by
  rw [apiRequestLoop_succ_eq, ht]

theorem apiRequestLoop_apiErr_step (t : Nat → TransportCall)
    (r : Nat → Bool × Option (List String)) (s : Option (List String)) (n ci ri : Nat)
    (stored : Option APIError) (e : APIError) (ht : t ci = .apiErr e) :
    apiRequestLoop t r s (n + 1) ci ri stored =
      (if e.http_code = 403 then
        { outcome := if needs_twofa s then .twofaNeeded e else .missingScope e,
          sleeps := [], transportCalls := 1, refreshCalls := 0 }
      else if e.http_code = 401 then
        if (r ri).1 then
          let res := apiRequestLoop t r (r ri).2 n (ci + 1) (ri + 1) (some e)
          { res with transportCalls := res.transportCalls + 1,
                     refreshCalls := res.refreshCalls + 1 }
        else
          { outcome := .authNeeded e, sleeps := [], transportCalls := 1, refreshCalls := 1 }
      else if e.http_code = 422 ∧ e.body_code = 9001 then
        { outcome := .humanVerificationNeeded e, sleeps := [], transportCalls := 1,
          refreshCalls := 0 }
      else if e.body_code = 12087 then
        { outcome := .humanVerificationNeeded e, sleeps := [], transportCalls := 1,
          refreshCalls := 0 }
      else if e.http_code = 408 ∨ e.http_code = 502 then
        let res := apiRequestLoop t r s n (ci + 1) ri (some e)
        { res with transportCalls := res.transportCalls + 1 }
      else if e.http_code = 429 ∨ e.http_code = 503 then
        let res := apiRequestLoop t r s n (ci + 1) ri (some e)
        { res with sleeps := sleepForException e :: res.sleeps,
                   transportCalls := res.transportCalls + 1 }
      else
        { outcome := .apiError e, sleeps := [], transportCalls := 1, refreshCalls := 0 }) := by
  rw [apiRequestLoop_succ_eq, ht]

/-! ## Claim C1 -/

/-- Claim C1: `Session.async_api_request` classifies a `ProtonAPIError` exactly
as the ordered table: 403 with `twofactor` in the scopes raises the 2FA-needed
error and otherwise the missing-scope error; 401 triggers one coalesced
refresh, retries the request on refresh success and raises the
authentication-needed error on failure; 422 with body 9001, and (past the
403/401 rows) any body 12087, raise the human-verification-needed error;
408/502 retry immediately within the same 3-attempt budget; 429/503 sleep
(numeric `retry-after` header, else jitter) and retry; any other error is
raised unchanged without retry; at most 3 transport requests are ever made,
and on exhaustion the last captured error is raised (never `None`). -/
theorem c1_api_request_classification (t : Nat → TransportCall)
    (r : Nat → Bool × Option (List String)) (s s' : Option (List String))
    (e : APIError) (v : Nat) :
    (t 0 = .apiErr e → e.http_code = 403 → needs_twofa s = true →
      async_api_request t r s = ⟨.twofaNeeded e, [], 1, 0⟩) ∧
    (t 0 = .apiErr e → e.http_code = 403 → needs_twofa s = false →
      async_api_request t r s = ⟨.missingScope e, [], 1, 0⟩) ∧
    ((∀ l : List String, needs_twofa (some l) = l.contains "twofactor") ∧
      needs_twofa none = false) ∧
    (t 0 = .apiErr e → e.http_code = 401 → r 0 = (true, s') → t 1 = .ok v →
      async_api_request t r s = ⟨.success v, [], 2, 1⟩) ∧
    (t 0 = .apiErr e → e.http_code = 401 → (r 0).1 = false →
      async_api_request t r s = ⟨.authNeeded e, [], 1, 1⟩) ∧
    (t 0 = .apiErr e → e.http_code = 422 → e.body_code = 9001 →
      async_api_request t r s = ⟨.humanVerificationNeeded e, [], 1, 0⟩) ∧
    (t 0 = .apiErr e → e.http_code ≠ 403 → e.http_code ≠ 401 → e.body_code = 12087 →
      async_api_request t r s = ⟨.humanVerificationNeeded e, [], 1, 0⟩) ∧
    (t 0 = .apiErr e → (e.http_code = 408 ∨ e.http_code = 502) → e.body_code ≠ 12087 →
      t 1 = .ok v →
      async_api_request t r s = ⟨.success v, [], 2, 0⟩) ∧
    (t 0 = .apiErr e → (e.http_code = 429 ∨ e.http_code = 503) → e.body_code ≠ 12087 →
      t 1 = .ok v →
      async_api_request t r s = ⟨.success v, [sleepForException e], 2, 0⟩) ∧
    (sleepForException ⟨429, 0, [("retry-after", "7")]⟩ = .after 7 ∧
      sleepForException ⟨503, 0, [("x-header", "soon")]⟩ = .jitter) ∧
    (t 0 = .apiErr e → e.http_code ≠ 403 → e.http_code ≠ 401 →
      ¬(e.http_code = 422 ∧ e.body_code = 9001) → e.body_code ≠ 12087 →
      e.http_code ≠ 408 → e.http_code ≠ 502 → e.http_code ≠ 429 → e.http_code ≠ 503 →
      async_api_request t r s = ⟨.apiError e, [], 1, 0⟩) ∧
    ((async_api_request t r s).transportCalls ≤ 3) ∧
    (∀ e₀ e₁ e₂ : APIError,
      e₀.http_code = 408 → e₁.http_code = 408 → e₂.http_code = 408 →
      e₀.body_code ≠ 12087 → e₁.body_code ≠ 12087 → e₂.body_code ≠ 12087 →
      t 0 = .apiErr e₀ → t 1 = .apiErr e₁ → t 2 = .apiErr e₂ →
      async_api_request t r s = ⟨.apiError e₂, [], 3, 0⟩) ∧
    ((async_api_request t r s).outcome ≠ .raiseNone) := by
  have start : async_api_request t r s = apiRequestLoop t r s (2 + 1) 0 0 none := rfl
  refine ⟨?_, ?_, ⟨fun l => rfl, rfl⟩, ?_, ?_, ?_, ?_, ?_, ?_, ⟨by decide, by decide⟩,
    ?_, ?_, ?_, ?_⟩
  · intro ht h403 htw
    rw [start, apiRequestLoop_apiErr_step t r s 2 0 0 none e ht, if_pos h403, htw]
    rfl
  · intro ht h403 htw
    rw [start, apiRequestLoop_apiErr_step t r s 2 0 0 none e ht, if_pos h403, htw]
    rfl
  · intro ht h401 hr ht1
    have e2 : apiRequestLoop t r s' 2 1 1 (some e) = ⟨.success v, [], 1, 0⟩ :=
      apiRequestLoop_ok_step t r s' 1 1 1 (some e) v ht1
    rw [start, apiRequestLoop_apiErr_step t r s 2 0 0 none e ht,
      if_neg (by simp [h401]), if_pos h401, hr]
    simp [e2]
  · intro ht h401 hr
    rw [start, apiRequestLoop_apiErr_step t r s 2 0 0 none e ht,
      if_neg (by simp [h401]), if_pos h401, hr]
    rfl
  · intro ht h422 h9001
    rw [start, apiRequestLoop_apiErr_step t r s 2 0 0 none e ht,
      if_neg (by simp [h422]), if_neg (by simp [h422]), if_pos ⟨h422, h9001⟩]
  · intro ht h403 h401 hb
    rw [start, apiRequestLoop_apiErr_step t r s 2 0 0 none e ht,
      if_neg h403, if_neg h401, if_neg (by simp [hb]), if_pos hb]
  · intro ht h48 hb ht1
    have e2 : apiRequestLoop t r s 2 1 0 (some e) = ⟨.success v, [], 1, 0⟩ :=
      apiRequestLoop_ok_step t r s 1 1 0 (some e) v ht1
    rw [start, apiRequestLoop_apiErr_step t r s 2 0 0 none e ht,
      if_neg (by rcases h48 with h | h <;> simp [h]),
      if_neg (by rcases h48 with h | h <;> simp [h]),
      if_neg (by rcases h48 with h | h <;> simp [h]),
      if_neg hb, if_pos h48]
    simp [e2]
  · intro ht h49 hb ht1
    have e2 : apiRequestLoop t r s 2 1 0 (some e) = ⟨.success v, [], 1, 0⟩ :=
      apiRequestLoop_ok_step t r s 1 1 0 (some e) v ht1
    rw [start, apiRequestLoop_apiErr_step t r s 2 0 0 none e ht,
      if_neg (by rcases h49 with h | h <;> simp [h]),
      if_neg (by rcases h49 with h | h <;> simp [h]),
      if_neg (by rcases h49 with h | h <;> simp [h]),
      if_neg hb,
      if_neg (by rcases h49 with h | h <;> simp [h]),
      if_pos h49]
    simp [e2]
  · intro ht h403 h401 h4229001 hb h408 h502 h429 h503
    rw [start, apiRequestLoop_apiErr_step t r s 2 0 0 none e ht,
      if_neg h403, if_neg h401, if_neg h4229001, if_neg hb,
      if_neg (by simp [h408, h502]), if_neg (by simp [h429, h503])]
  · exact apiRequestLoop_calls_le t r 3 s 0 0 none
  · intro e₀ e₁ e₂ h0 h1 h2 hb0 hb1 hb2 ht0 ht1 ht2
    have q0 : apiRequestLoop t r s 1 2 0 (some e₁) = ⟨.apiError e₂, [], 1, 0⟩ := by
      rw [show apiRequestLoop t r s 1 2 0 (some e₁) = apiRequestLoop t r s (0 + 1) 2 0 (some e₁)
            from rfl,
        apiRequestLoop_apiErr_step t r s 0 2 0 (some e₁) e₂ ht2,
        if_neg (by simp [h2]), if_neg (by simp [h2]), if_neg (by simp [h2]),
        if_neg hb2, if_pos (Or.inl h2)]
      rw [apiRequestLoop_zero_eq]
    have q1 : apiRequestLoop t r s 2 1 0 (some e₀) = ⟨.apiError e₂, [], 2, 0⟩ := by
      rw [show apiRequestLoop t r s 2 1 0 (some e₀) = apiRequestLoop t r s (1 + 1) 1 0 (some e₀)
            from rfl,
        apiRequestLoop_apiErr_step t r s 1 1 0 (some e₀) e₁ ht1,
        if_neg (by simp [h1]), if_neg (by simp [h1]), if_neg (by simp [h1]),
        if_neg hb1, if_pos (Or.inl h1)]
      simp [q0]
    rw [start, apiRequestLoop_apiErr_step t r s 2 0 0 none e₀ ht0,
      if_neg (by simp [h0]), if_neg (by simp [h0]), if_neg (by simp [h0]),
      if_neg hb0, if_pos (Or.inl h0)]
    simp [q1]
  · rw [start, apiRequestLoop_succ_eq]
    rcases ht : t 0 with v' | e' | x
    · simp
    · simp only []
      split_ifs <;> simp [apiRequestLoop_ne_raiseNone t r]
    · simp

theorem c1_api_request_classification_witness :
    async_api_request (fun i => if i = 0 then .apiErr ⟨401, 0, []⟩ else .ok 7)
        (fun _ => (true, some ["full"])) none = ⟨.success 7, [], 2, 1⟩ :=
  (c1_api_request_classification (fun i => if i = 0 then .apiErr ⟨401, 0, []⟩ else .ok 7)
    (fun _ => (true, some ["full"])) none (some ["full"]) ⟨401, 0, []⟩ 7).2.2.2.1
    rfl rfl rfl rfl

/-! ## Helper: evaluating the refresh loop -/

theorem refreshAttempts_zero_eq (net : Nat → RefreshNet) (st : SessionState) (ci : Nat) :
    refreshAttempts net st 0 ci = (none, st, []) := rfl

theorem refreshAttempts_succ_eq (net : Nat → RefreshNet) (st : SessionState) (n ci : Nat) :
    refreshAttempts net st (n + 1) ci =
      (match net ci with
      | .ok access refreshTok scopes =>
        (some true,
         { st with AccessToken := .s access, RefreshToken := .s refreshTok,
                   Scopes := .strlist scopes },
         [.netRefresh])
      | .err e =>
        if e.http_code = 409 then
          let r := refreshAttempts net st n (ci + 1)
          (r.1, r.2.1, .netRefresh :: r.2.2)
        else if e.http_code = 429 ∨ e.http_code = 503 then
          let r := refreshAttempts net st n (ci + 1)
          (r.1, r.2.1, .netRefresh :: .slept (sleepForException e) :: r.2.2)
        else if e.http_code = 400 ∨ e.http_code = 422 then
          (some false, clearLocalData st, [.netRefresh])
        else
          (some false, st, [.netRefresh])) := rfl

/-- No branch of the refresh attempt loop touches `__refresh_revision`. -/
theorem refreshAttempts_refresh_revision (net : Nat → RefreshNet) :
    ∀ (n : Nat) (st : SessionState) (ci : Nat),
      (refreshAttempts net st n ci).2.1.refresh_revision = st.refresh_revision := by
  intro n
  induction n with
  | zero => intro st ci; rfl
  | succ n ih =>
    intro st ci
    rw [refreshAttempts_succ_eq]
    rcases hn : net ci with ⟨a, rt, sc⟩ | ⟨e⟩
    · rfl
    · simp only []
      split_ifs <;> simp [ih, clearLocalData]

/-- The first attempt of the refresh loop always issues a network request. -/
theorem refreshAttempts_first_nets (net : Nat → RefreshNet) (st : SessionState) (n ci : Nat) :
    1 ≤ countNetRefresh (refreshAttempts net st (n + 1) ci).2.2 := by
  rw [refreshAttempts_succ_eq]
  rcases hn : net ci with ⟨a, rt, sc⟩ | ⟨e⟩
  · simp [countNetRefresh]
  · simp only []
    split_ifs <;> simp [countNetRefresh]

theorem runConcurrentRefreshers_zero_eq (net : Nat → RefreshNet) (cap : Nat)
    (st : SessionState) :
    runConcurrentRefreshers net cap st 0 = (st, [], 0) := rfl

theorem runConcurrentRefreshers_succ_eq (net : Nat → RefreshNet) (cap : Nat)
    (st : SessionState) (n : Nat) :
    runConcurrentRefreshers net cap st (n + 1) =
      (let r := Session_async_refresh st (some cap) net
       let rest := runConcurrentRefreshers net cap r.2.1 n
       (rest.1, r.1 :: rest.2.1, countNetRefresh r.2.2 + rest.2.2)) := rfl

/-- When the live revision no longer matches the captured one, `async_refresh`
is a pure wait: callers that arrive after the revision moved do nothing. -/
theorem runConcurrentRefreshers_stuck (net : Nat → RefreshNet) (cap : Nat) :
    ∀ (m : Nat) (st : SessionState), st.refresh_revision ≠ cap →
      runConcurrentRefreshers net cap st m = (st, List.replicate m (some true), 0) := by
  intro m
  induction m with
  | zero => intro st h; rfl
  | succ m ih =>
    intro st h
    rw [runConcurrentRefreshers_succ_eq]
    have hmis : Session_async_refresh st (some cap) net = (some true, st, [.waited]) := by
      show (if cap ≠ st.refresh_revision then ((some true : Option Bool), st, [RefreshEvent.waited])
            else refreshLocked st net) = (some true, st, [.waited])
      rw [if_pos (Ne.symm h)]
    rw [hmis]
    simp [ih st h, countNetRefresh, List.replicate_succ]

/-! ## Claim C2 -/

/-- Claim C2: `Session.async_refresh(only_when_refresh_revision_is = cap)`:
when `cap` differs from the live revision the call performs no network
request, leaves the state untouched, waits for the in-flight mutation and
returns `True`; otherwise it locks, increments the revision exactly once
before any network I/O (the increment is the second trace event, every
network request comes later), and performs the network refresh.  N callers
that captured the same revision produce exactly one `POST /auth/refresh` and
all return `True`. -/
theorem c2_refresh_coalescing (st : SessionState) (cap : Nat) (net : Nat → RefreshNet)
    (a rt : String) (sc : List String) (n : Nat) :
    (cap ≠ st.refresh_revision →
      Session_async_refresh st (some cap) net = (some true, st, [.waited])) ∧
    ((Session_async_refresh st (some st.refresh_revision) net).2.1.refresh_revision
        = st.refresh_revision + 1) ∧
    ((Session_async_refresh st (some st.refresh_revision) net).2.2.take 2
        = [.locked, .revIncremented]) ∧
    (1 ≤ countNetRefresh (Session_async_refresh st (some st.refresh_revision) net).2.2) ∧
    (net 0 = .ok a rt sc →
      (runConcurrentRefreshers net st.refresh_revision st (n + 1)).2.2 = 1 ∧
      ∀ x ∈ (runConcurrentRefreshers net st.refresh_revision st (n + 1)).2.1,
        x = some true) := by
  have hmatch : Session_async_refresh st (some st.refresh_revision) net = refreshLocked st net := by
    show (if st.refresh_revision ≠ st.refresh_revision
            then ((some true : Option Bool), st, [RefreshEvent.waited])
          else refreshLocked st net) = refreshLocked st net
    rw [if_neg (fun hne => hne rfl)]
  refine ⟨?_, ?_, ?_, ?_, ?_⟩
  · intro h
    show (if cap ≠ st.refresh_revision then ((some true : Option Bool), st, [RefreshEvent.waited])
          else refreshLocked st net) = (some true, st, [.waited])
    rw [if_pos h]
  · rw [hmatch]
    show (refreshAttempts net { st with refresh_revision := st.refresh_revision + 1 }
        3 0).2.1.refresh_revision = st.refresh_revision + 1
    rw [refreshAttempts_refresh_revision]
  · rw [hmatch]
    rfl
  · rw [hmatch]
    show 1 ≤ countNetRefresh (.locked :: .revIncremented ::
      (refreshAttempts net { st with refresh_revision := st.refresh_revision + 1 } 3 0).2.2
        ++ [.unlocked])
    have hc : countNetRefresh (RefreshEvent.locked :: .revIncremented ::
        (refreshAttempts net { st with refresh_revision := st.refresh_revision + 1 } 3 0).2.2
          ++ [.unlocked]) =
        countNetRefresh
          (refreshAttempts net { st with refresh_revision := st.refresh_revision + 1 } 3 0).2.2 := by
      simp [countNetRefresh]
    rw [hc]
    exact refreshAttempts_first_nets net _ 2 0
  · intro hnet
    have hfirst : Session_async_refresh st (some st.refresh_revision) net =
        (some true,
         { st with AccessToken := .s a, RefreshToken := .s rt, Scopes := .strlist sc,
                   refresh_revision := st.refresh_revision + 1 },
         [.locked, .revIncremented, .netRefresh, .unlocked]) := by
      rw [hmatch, refreshLocked]
      have hx : refreshAttempts net { st with refresh_revision := st.refresh_revision + 1 } 3 0 =
          (some true,
           { st with AccessToken := .s a, RefreshToken := .s rt, Scopes := .strlist sc,
                     refresh_revision := st.refresh_revision + 1 },
           [.netRefresh]) := by
        rw [show refreshAttempts net { st with refresh_revision := st.refresh_revision + 1 } 3 0
              = refreshAttempts net { st with refresh_revision := st.refresh_revision + 1 }
                  (2 + 1) 0 from rfl,
          refreshAttempts_succ_eq, hnet]
      rw [hx]
      rfl
    have hrest : runConcurrentRefreshers net st.refresh_revision
        { st with AccessToken := .s a, RefreshToken := .s rt, Scopes := .strlist sc,
                  refresh_revision := st.refresh_revision + 1 } n =
        ({ st with AccessToken := .s a, RefreshToken := .s rt, Scopes := .strlist sc,
                   refresh_revision := st.refresh_revision + 1 },
         List.replicate n (some true), 0) :=
      runConcurrentRefreshers_stuck net st.refresh_revision n _ (by simp)
    have hrun : runConcurrentRefreshers net st.refresh_revision st (n + 1) =
        ({ st with AccessToken := .s a, RefreshToken := .s rt, Scopes := .strlist sc,
                   refresh_revision := st.refresh_revision + 1 },
         some true :: List.replicate n (some true), 1) := by
      rw [runConcurrentRefreshers_succ_eq]
      simp [hfirst, hrest, countNetRefresh]
    rw [hrun]
    refine ⟨rfl, ?_⟩
    intro x hx
    rcases List.mem_cons.mp hx with h | h
    · exact h
    · exact List.eq_of_mem_replicate h

theorem c2_refresh_coalescing_witness :
    (Session_async_refresh sessionAuthExample (some 7)
        (fun _ => .ok "newAcc" "newRef" ["full"]) = (some true, sessionAuthExample, [.waited])) ∧
    ((runConcurrentRefreshers (fun _ => .ok "newAcc" "newRef" ["full"]) 2
        sessionAuthExample 3).2.2 = 1) :=
  ⟨(c2_refresh_coalescing sessionAuthExample 7 (fun _ => .ok "newAcc" "newRef" ["full"])
      "newAcc" "newRef" ["full"] 0).1 (by decide),
   ((c2_refresh_coalescing sessionAuthExample 2 (fun _ => .ok "newAcc" "newRef" ["full"])
      "newAcc" "newRef" ["full"] 2).2.2.2.2 rfl).1⟩

/-! ## Claim C7 -/

/-- Claim C7, counterexample: The claim says a response with a non-JSON body is
raised as the reachable-but-broken classification
(`ProtonAPINotAvailable`).  It is not: `AiohttpTransport.async_api_request`
raises `ProtonAPINotReachable("API returned non-json results")` — the
unreachable classification — for a non-JSON content type. -/
theorem c7_non_json_raises_not_reachable :
    aiohttpHandleResponse (some "text/html") 200 (.jsonObj [("Code", 1000)])
      = .raiseNotReachable ∧
    TransportOutcome.raiseNotReachable ≠ TransportOutcome.raiseNotAvailable :=
  ⟨rfl, by simp⟩

/-- Claim C7, amended: A response whose content type is not `application/json`
raises the unreachable classification (`ProtonAPINotReachable`), and a JSON
body that fails to decode raises `ProtonAPIUnexpectedError` (via the
`KeyError` thrown while building `ProtonAPIError(status, headers, {})`) —
neither is the reachable-but-broken classification.  The transport-selection
probe nevertheless still tries the other candidates after a non-JSON-body
failure, because `find_available_transport` records `ProtonAPINotReachable`
and `ProtonAPINotAvailable` candidate failures alike and keeps waiting, while
any other exception aborts the selection. -/
theorem c7_transport_error_classification (ct : String) (status : Nat)
    (fields : List (String × Int)) (rest : List ProbeResult) (i : Nat) :
    (ct ≠ "application/json" →
      aiohttpHandleResponse (some ct) status (.jsonObj fields) = .raiseNotReachable ∧
      aiohttpHandleResponse (some ct) status .notJson = .raiseNotReachable) ∧
    (aiohttpHandleResponse (some "application/json") status .notJson = .raiseUnexpected) ∧
    (findAvailableTransport (.notReachable :: rest) i = findAvailableTransport rest (i + 1)) ∧
    (findAvailableTransport (.notAvailable :: rest) i = findAvailableTransport rest (i + 1)) ∧
    (findAvailableTransport [.notReachable, .ping1000] 0 = .committed 1) ∧
    (pingViaTransport .raiseNotReachable = .notReachable) ∧
    (findAvailableTransport (.otherError :: rest) i = .aborted) := by
  refine ⟨?_, rfl, rfl, rfl, rfl, rfl, rfl⟩
  intro h
  exact ⟨by simp [aiohttpHandleResponse, h], by simp [aiohttpHandleResponse, h]⟩

theorem c7_transport_error_classification_witness :
    aiohttpHandleResponse (some "text/plain") 200 (.jsonObj [("Code", 1000)])
      = .raiseNotReachable ∧
    findAvailableTransport [.notReachable, .ping1000] 0 = .committed 1 := by
  refine ⟨?_, ?_⟩
  · exact ((c7_transport_error_classification "text/plain" 200 [("Code", 1000)] [] 0).1
      (by decide)).1
  · exact (c7_transport_error_classification "text/plain" 200 [("Code", 1000)]
      [.ping1000] 0).2.2.2.2.1

/-! ## Helper: association-list lookups for the serialized state -/

theorem contains_eq_false_of_not_mem {l : List String} {k : String} (h : k ∉ l) :
    l.contains k = false := by
  simpa using h

theorem lookupPV_append (l₁ l₂ : List (String × PValue)) (k : String) :
    lookupPV (l₁ ++ l₂) k =
      match lookupPV l₁ k with
      | some v => some v
      | none => lookupPV l₂ k := by
  induction l₁ with
  | nil => rfl
  | cons kv l ih =>
    rcases kv with ⟨k₀, v₀⟩
    by_cases h : k₀ = k
    · simp [lookupPV, h]
    · simp [lookupPV, h, ih]

theorem lookupPV_filter (l : List (String × PValue)) (p : String → Bool) (k : String)
    (hk : p k = true) :
    lookupPV (l.filter (fun kv => p kv.1)) k = lookupPV l k := by
  induction l with
  | nil => rfl
  | cons kv l ih =>
    rcases kv with ⟨k₀, v₀⟩
    by_cases h : k₀ = k
    · subst h
      simp [List.filter_cons, hk, lookupPV]
    · by_cases hp : p k₀ <;> simp [List.filter_cons, hp, lookupPV, h, ih]

theorem lookupPV_isSome_of_mem {l : List (String × PValue)} {kv : String × PValue}
    (h : kv ∈ l) : (lookupPV l kv.1).isSome = true := by
  induction l with
  | nil => cases h
  | cons a l ih =>
    rcases List.mem_cons.mp h with h' | h'
    · subst h'
      rcases kv with ⟨k₀, v₀⟩
      simp [lookupPV]
    · rcases a with ⟨k₀, v₀⟩
      by_cases hk : k₀ = kv.1 <;> simp [lookupPV, hk, ih h']

/-- Keys absent from `knownKeys` are absent from an extra-state dictionary
whose keys avoid `knownKeys`. -/
theorem lookupPV_none_of_keys_not_mem {upd : List (String × PValue)} {k : String}
    (hupd : ∀ kv ∈ upd, kv.1 ∉ knownKeys) (hk : k ∈ knownKeys) :
    lookupPV upd k = none := by
  induction upd with
  | nil => rfl
  | cons kv l ih =>
    rcases kv with ⟨k₀, v₀⟩
    have hne : k₀ ≠ k := fun he => (hupd ⟨k₀, v₀⟩ (List.mem_cons_self _ _)) (by simp [he, hk])
    simp only [lookupPV, if_neg hne]
    exact ih (fun kv h => hupd kv (List.mem_cons_of_mem _ h))

theorem lookupPV_map_override_none (base upd : List (String × PValue)) (k : String)
    (h : lookupPV base k = none) :
    lookupPV (base.map (fun kv =>
      match lookupPV upd kv.1 with
      | some v => (kv.1, v)
      | none => kv)) k = none := by
  induction base with
  | nil => rfl
  | cons kv l ih =>
    rcases kv with ⟨k₀, v₀⟩
    by_cases hk : k₀ = k
    · simp [lookupPV, hk] at h
    · simp only [lookupPV, if_neg hk] at h
      rcases hu : lookupPV upd k₀ with _ | v <;>
        simp [List.map_cons, hu, lookupPV, hk, ih h]

/-- Looking an unknown key up in `dict(base); base.update(upd)` finds the
`upd` entry. -/
theorem lookupPV_dictUpdate_right (base upd : List (String × PValue)) (k : String)
    (hb : lookupPV base k = none) :
    lookupPV (dictUpdate base upd) k = lookupPV upd k := by
  rw [dictUpdate, lookupPV_append, lookupPV_map_override_none base upd k hb]
  exact lookupPV_filter upd (fun key => (lookupPV base key).isNone) k (by simp [hb])

/-- The base dictionary built by `__getstate__` holds only the known keys. -/
theorem lookupPV_getstate_base_none (st : SessionState) (d : String) {k : String}
    (h : k ∉ knownKeys) :
    lookupPV [("UID", st.UID), ("AccessToken", st.AccessToken),
      ("RefreshToken", st.RefreshToken), ("Scopes", st.Scopes),
      ("Environment", PValue.s (st.environment.getD d)), ("AccountName", st.AccountName),
      ("LastUseData", PValue.map [("2FA", st.twoFA), ("appversion", .s st.appversion),
        ("user_agent", .s st.user_agent), ("refresh_revision", .n st.refresh_revision)])] k
      = none := by
  simp only [knownKeys, List.mem_cons, List.not_mem_nil, or_false, not_or] at h
  obtain ⟨h1, h2, h3, h4, h5, h6, h7⟩ := h
  simp [lookupPV, Ne.symm h1, Ne.symm h2, Ne.symm h3, Ne.symm h4, Ne.symm h5, Ne.symm h6,
    Ne.symm h7]

/-- The serialized state of an authenticated session holds its `UID`. -/
theorem lookupPV_getstate_UID (st : SessionState) (d : String)
    (hx : ∀ kv ∈ st.extrastate, kv.1 ∉ knownKeys) (hUID : pyIsNone st.UID = false) :
    lookupPV (Session_getstate st d) "UID" = some st.UID := by
  have e1 : lookupPV st.extrastate "UID" = none :=
    lookupPV_none_of_keys_not_mem hx (by decide)
  simp [Session_getstate, hUID, dictUpdate, lookupPV, e1]

/-- Looking up a non-reserved key in the serialized state reads the extra
state. -/
theorem lookupPV_getstate_unknown (st : SessionState) (d : String) {k : String}
    (hUID : pyIsNone st.UID = false) (hk : k ∉ knownKeys) :
    lookupPV (Session_getstate st d) k = lookupPV st.extrastate k := by
  have hst : Session_getstate st d =
      dictUpdate [("UID", st.UID), ("AccessToken", st.AccessToken),
        ("RefreshToken", st.RefreshToken), ("Scopes", st.Scopes),
        ("Environment", PValue.s (st.environment.getD d)), ("AccountName", st.AccountName),
        ("LastUseData", PValue.map [("2FA", st.twoFA), ("appversion", .s st.appversion),
          ("user_agent", .s st.user_agent), ("refresh_revision", .n st.refresh_revision)])]
        st.extrastate := by
    simp [Session_getstate, hUID]
  rw [hst, lookupPV_dictUpdate_right _ _ _ (lookupPV_getstate_base_none st d hk)]

/-! ## Claim C6 -/

/-- Claim C6: `__getstate__` returns the empty dict exactly when `UID` is
`None`; when authenticated the serialized dict carries `UID`, `AccessToken`,
`RefreshToken`, `Scopes`, the environment name, `AccountName`, the
`LastUseData` sub-dict (`2FA`, `appversion`, `user_agent`,
`refresh_revision`) and every extra-state key; and a `__setstate__` followed
by `__getstate__` leaves every key outside the reserved set — the opaque
extra state — unchanged. -/
theorem c6_serialization_roundtrip (st st₁ : SessionState) (d d' : String) (k : String)
    (hx : ∀ kv ∈ st.extrastate, kv.1 ∉ knownKeys) :
    (Session_getstate st d = [] ↔ pyIsNone st.UID = true) ∧
    (pyIsNone st.UID = false →
      lookupPV (Session_getstate st d) "UID" = some st.UID ∧
      lookupPV (Session_getstate st d) "AccessToken" = some st.AccessToken ∧
      lookupPV (Session_getstate st d) "RefreshToken" = some st.RefreshToken ∧
      lookupPV (Session_getstate st d) "Scopes" = some st.Scopes ∧
      lookupPV (Session_getstate st d) "Environment" = some (.s (st.environment.getD d)) ∧
      lookupPV (Session_getstate st d) "AccountName" = some st.AccountName ∧
      lookupPV (Session_getstate st d) "LastUseData" =
        some (.map [("2FA", st.twoFA), ("appversion", .s st.appversion),
          ("user_agent", .s st.user_agent), ("refresh_revision", .n st.refresh_revision)]) ∧
      ∀ kv ∈ st.extrastate, (lookupPV (Session_getstate st d) kv.1).isSome = true) ∧
    (k ∉ knownKeys →
      lookupPV (Session_getstate (Session_setstate st₁ (Session_getstate st d)) d') k
        = lookupPV (Session_getstate st d) k) := by
  refine ⟨?_, ?_, ?_⟩
  · constructor
    · intro h
      cases hU : pyIsNone st.UID with
      | true => rfl
      | false =>
        exfalso
        rw [Session_getstate, hU] at h
        simp [dictUpdate] at h
    · intro h
      simp [Session_getstate, h]
  · intro hUID
    have hex : ∀ kk ∈ knownKeys, lookupPV st.extrastate kk = none :=
      fun kk hkk => lookupPV_none_of_keys_not_mem hx hkk
    have e1 := hex "UID" (by decide)
    have e2 := hex "AccessToken" (by decide)
    have e3 := hex "RefreshToken" (by decide)
    have e4 := hex "Scopes" (by decide)
    have e5 := hex "Environment" (by decide)
    have e6 := hex "AccountName" (by decide)
    have e7 := hex "LastUseData" (by decide)
    refine ⟨?_, ?_, ?_, ?_, ?_, ?_, ?_, ?_⟩
    · exact lookupPV_getstate_UID st d hx hUID
    · simp [Session_getstate, hUID, dictUpdate, lookupPV, e1, e2]
    · simp [Session_getstate, hUID, dictUpdate, lookupPV, e1, e2, e3]
    · simp [Session_getstate, hUID, dictUpdate, lookupPV, e1, e2, e3, e4]
    · simp [Session_getstate, hUID, dictUpdate, lookupPV, e1, e2, e3, e4, e5]
    · simp [Session_getstate, hUID, dictUpdate, lookupPV, e1, e2, e3, e4, e5, e6]
    · simp [Session_getstate, hUID, dictUpdate, lookupPV, e1, e2, e3, e4, e5, e6, e7]
    · intro kv hkv
      rw [lookupPV_getstate_unknown st d hUID (hx kv hkv)]
      exact lookupPV_isSome_of_mem hkv
  · intro hk
    cases hU : pyIsNone st.UID with
    | true =>
      have hempty : Session_getstate st d = [] := by simp [Session_getstate, hU]
      rw [hempty]
      simp [Session_getstate, Session_setstate, lookupPV, pyIsNone]
    | false =>
      have hUIDm : lookupPV (Session_getstate st d) "UID" = some st.UID :=
        lookupPV_getstate_UID st d hx hU
      have hnewUID : (Session_setstate st₁ (Session_getstate st d)).UID = st.UID := by
        simp [Session_setstate, hUIDm]
      have hnew : pyIsNone (Session_setstate st₁ (Session_getstate st d)).UID = false := by
        rw [hnewUID]; exact hU
      have hnewext : (Session_setstate st₁ (Session_getstate st d)).extrastate
          = (Session_getstate st d).filter (fun kv => !(knownKeys.contains kv.1)) := rfl
      rw [lookupPV_getstate_unknown _ d' hnew hk, hnewext,
        lookupPV_filter (Session_getstate st d) (fun x => !(knownKeys.contains x)) k
          (by simpa using hk)]

theorem c6_serialization_roundtrip_witness :
    (∀ kv ∈ sessionAuthExample.extrastate, kv.1 ∉ knownKeys) ∧
    lookupPV (Session_getstate (Session_setstate sessionUnauthExample
        (Session_getstate sessionAuthExample "prod")) "prod") "OpaqueKey"
      = lookupPV (Session_getstate sessionAuthExample "prod") "OpaqueKey" :=
  ⟨by decide,
   (c6_serialization_roundtrip sessionAuthExample sessionUnauthExample "prod" "prod" "OpaqueKey"
      (by decide)).2.2 (by decide)⟩

end ProtonCore
